import Mathlib

/-!
Shallow embedding of ustl's ufunction.h, a header-only library of STL-style
function-object adaptors, together with proofs of its specified properties.

Modelling conventions:
* a C++ functor class becomes a Lean structure whose fields mirror the C++
  data members (names kept: m_pfn, m_Value, m_pv), and its operator() becomes
  a function named `call`;
* a stateless comparator functor (equal_to, less, ...) becomes a plain
  function; since the C++ templates use only operator< and operator== of the
  element type T, the embedding passes exactly those two operations as
  explicit function parameters `lt` and `eq` — no other operation on T is
  available to the definitions, mirroring the source;
* a pointer-to-data-member `VT T::*` becomes a getter function `T → VT`;
* a plain function pointer becomes a Lean function;
* the signature-tag typedefs (the unary_function / binary_function base
  classes and the declared parameter and return types of each operator())
  are reified as data (`SignatureTag`, `CallSig`) for the claims that are
  about the tags themselves rather than about call behaviour;
* const member functions cannot mutate the object; to make that checkable
  the embedding also gives each adaptor a state-passing variant `callSt`
  translated from the same C++ body, returning the result together with the
  object state after the call.
-/

namespace ustl

/-! ### Comparison and logical functors, ufunction.h lines 62-77 -/

/-- equal_to\<T\>::operator()(a,b) = (a == b).  `eq` models operator== of T. -/
def equal_to {T : Type} (eq : T → T → Bool) (a b : T) : Bool := eq a b

/-- not_equal_to\<T\>::operator()(a,b) = (!(a == b)). -/
def not_equal_to {T : Type} (eq : T → T → Bool) (a b : T) : Bool := !(eq a b)

/-- greater\<T\>::operator()(a,b) = (b < a).  `lt` models operator< of T. -/
def greater {T : Type} (lt : T → T → Bool) (a b : T) : Bool := lt b a

/-- less\<T\>::operator()(a,b) = (a < b). -/
def less {T : Type} (lt : T → T → Bool) (a b : T) : Bool := lt a b

/-- greater_equal\<T\>::operator()(a,b) = (b < a || a == b). -/
def greater_equal {T : Type} (lt eq : T → T → Bool) (a b : T) : Bool :=
  lt b a || eq a b

/-- less_equal\<T\>::operator()(a,b) = (a < b || a == b). -/
def less_equal {T : Type} (lt eq : T → T → Bool) (a b : T) : Bool :=
  lt a b || eq a b

/-- compare\<T\>::operator()(a,b) = (a < b ? -1 : (a == b ? 0 : 1)). -/
def compare {T : Type} (lt eq : T → T → Bool) (a b : T) : Int :=
  if lt a b then -1 else if eq a b then 0 else 1

/-- C++ contextual conversion of an integral value to bool: nonzero is true. -/
def toBool (a : Int) : Bool := a != 0

/-- C++ conversion from bool back to an integral type: true is 1, false is 0. -/
def ofBool (b : Bool) : Int := if b then 1 else 0

/-- logical_and\<T\>::operator()(a,b) = (a && b), returned as T.  For an
integral T the C++ expression contextually converts each operand to bool and
converts the bool result back to T. -/
def logical_and (a b : Int) : Int := ofBool (toBool a && toBool b)

/-- logical_or\<T\>::operator()(a,b) = (a || b), returned as T. -/
def logical_or (a b : Int) : Int := ofBool (toBool a || toBool b)

/-! ### Function-pointer wrappers functor1 / functor2 / functor, lines 83-127 -/

/-- functor1\<Arg,Result,UnaryFunction\>: wraps a 1-argument function pointer. -/
structure functor1 (Arg Result : Type) where
  m_pfn : Arg → Result

/-- functor1::operator()(v) = m_pfn(v). -/
def functor1.call {Arg Result : Type} (f : functor1 Arg Result) (v : Arg) : Result :=
  f.m_pfn v

/-- functor2\<Arg1,Arg2,Result,BinaryFunction\>: wraps a 2-argument function pointer. -/
structure functor2 (Arg1 Arg2 Result : Type) where
  m_pfn : Arg1 → Arg2 → Result

/-- functor2::operator()(v1,v2) = m_pfn(v1,v2). -/
def functor2.call {Arg1 Arg2 Result : Type} (f : functor2 Arg1 Arg2 Result)
    (v1 : Arg1) (v2 : Arg2) : Result :=
  f.m_pfn v1 v2

/-- functor(pfn), 1-argument overload (line 116): returns functor1(pfn). -/
def functor {Arg Result : Type} (pfn : Arg → Result) : functor1 Arg Result :=
  ⟨pfn⟩

/-- functor(pfn), 2-argument overload (line 124): returns functor2(pfn). -/
def functor2.functor {Arg1 Arg2 Result : Type} (pfn : Arg1 → Arg2 → Result) :
    functor2 Arg1 Arg2 Result :=
  ⟨pfn⟩

/-- The free function of the spec's concrete scenario: int square(int n). -/
def square (n : Int) : Int := n * n

/-! ### Negator unary_negate / unary_negator, lines 133-155.
The claims concern boolean-returning inner callables, so the inner
result_type is instantiated at Bool. -/

/-- unary_negate\<UnaryFunction\>: wraps a 1-argument callable. -/
structure unary_negate (A : Type) where
  m_pfn : A → Bool

/-- unary_negate::operator()(v) = (!m_pfn(v)). -/
def unary_negate.call {A : Type} (n : unary_negate A) (v : A) : Bool :=
  !(n.m_pfn v)

/-- unary_negator(pfn) = unary_negate(pfn). -/
def unary_negator {A : Type} (pfn : A → Bool) : unary_negate A :=
  ⟨pfn⟩

/-- Declared argument_type of unary_negate: the inner callable's argument_type
(line 134). -/
def unary_negate.argument_type (A : Type) : Type := A

/-- Declared result_type of unary_negate: the inner callable's result_type
(line 135), here Bool. -/
def unary_negate.result_type (_ : Type) : Type := Bool

/-! ### Argument binders binder1st / binder2nd / bind1st / bind2nd, lines 163-209 -/

/-- binder1st\<BinaryFunction\>: wraps a 2-argument callable and a fixed first
argument. -/
structure binder1st (A1 A2 R : Type) where
  m_pfn : A1 → A2 → R
  m_Value : A1

/-- binder1st::operator()(v2) = m_pfn(m_Value, v2). -/
def binder1st.call {A1 A2 R : Type} (b : binder1st A1 A2 R) (v2 : A2) : R :=
  b.m_pfn b.m_Value v2

/-- Declared argument_type of binder1st: BinaryFunction::second_argument_type
(line 164). -/
def binder1st.argument_type (_ A2 _ : Type) : Type := A2

/-- Declared result_type of binder1st: BinaryFunction::result_type (line 165). -/
def binder1st.result_type (_ _ R : Type) : Type := R

/-- binder2nd\<BinaryFunction\>: wraps a 2-argument callable and a fixed second
argument. -/
structure binder2nd (A1 A2 R : Type) where
  m_pfn : A1 → A2 → R
  m_Value : A2

/-- binder2nd::operator()(v1) = m_pfn(v1, m_Value). -/
def binder2nd.call {A1 A2 R : Type} (b : binder2nd A1 A2 R) (v1 : A1) : R :=
  b.m_pfn v1 b.m_Value

/-- Declared argument_type of binder2nd: BinaryFunction::first_argument_type
(line 179). -/
def binder2nd.argument_type (A1 _ _ : Type) : Type := A1

/-- Declared result_type of binder2nd: BinaryFunction::result_type (line 180). -/
def binder2nd.result_type (_ _ R : Type) : Type := R

/-- bind1st(pfn, v) = binder1st(pfn, v). -/
def bind1st {A1 A2 R : Type} (pfn : A1 → A2 → R) (v : A1) : binder1st A1 A2 R :=
  { m_pfn := pfn, m_Value := v }

/-- bind2nd(pfn, v) = binder2nd(pfn, v). -/
def bind2nd {A1 A2 R : Type} (pfn : A1 → A2 → R) (v : A2) : binder2nd A1 A2 R :=
  { m_pfn := pfn, m_Value := v }

/-! ### Member variable adaptors, lines 276-372.
A pointer-to-data-member `VT T::*` is embedded as a getter `T → VT`. -/

/-- mem_var1_t\<UnaryFunction,T,VT\>: member pointer plus inner unary callable. -/
structure mem_var1_t (T VT R : Type) where
  m_pv : T → VT
  m_pfn : VT → R

/-- mem_var1_t::operator()(p) = m_pfn(p.*m_pv). -/
def mem_var1_t.call {T VT R : Type} (f : mem_var1_t T VT R) (p : T) : R :=
  f.m_pfn (f.m_pv p)

/-- const_mem_var1_t\<UnaryFunction,T,VT\>: const-instance variant of mem_var1_t. -/
structure const_mem_var1_t (T VT R : Type) where
  m_pv : T → VT
  m_pfn : VT → R

/-- const_mem_var1_t::operator()(p) = m_pfn(p.*m_pv). -/
def const_mem_var1_t.call {T VT R : Type} (f : const_mem_var1_t T VT R) (p : T) : R :=
  f.m_pfn (f.m_pv p)

/-- mem_var2_t\<BinaryFunction,T,VT\>: member pointer plus inner binary callable. -/
structure mem_var2_t (T VT R : Type) where
  m_pv : T → VT
  m_pfn : VT → VT → R

/-- mem_var2_t::operator()(p1,p2) = m_pfn(p1.*m_pv, p2.*m_pv). -/
def mem_var2_t.call {T VT R : Type} (f : mem_var2_t T VT R) (p1 p2 : T) : R :=
  f.m_pfn (f.m_pv p1) (f.m_pv p2)

/-- const_mem_var2_t\<BinaryFunction,T,VT\>: const-instance variant of mem_var2_t. -/
structure const_mem_var2_t (T VT R : Type) where
  m_pv : T → VT
  m_pfn : VT → VT → R

/-- const_mem_var2_t::operator()(p1,p2) = m_pfn(p1.*m_pv, p2.*m_pv). -/
def const_mem_var2_t.call {T VT R : Type} (f : const_mem_var2_t T VT R) (p1 p2 : T) : R :=
  f.m_pfn (f.m_pv p1) (f.m_pv p2)

/-- mem_var1(mvp, pfn) = mem_var1_t(mvp, pfn)  (line 345). -/
def mem_var1 {T VT R : Type} (mvp : T → VT) (pfn : VT → R) : mem_var1_t T VT R :=
  ⟨mvp, pfn⟩

/-- const_mem_var1(mvp, pfn) = const_mem_var1_t(mvp, pfn)  (line 353). -/
def const_mem_var1 {T VT R : Type} (mvp : T → VT) (pfn : VT → R) :
    const_mem_var1_t T VT R :=
  ⟨mvp, pfn⟩

/-- mem_var2(mvp, pfn) = mem_var2_t(mvp, pfn)  (line 361). -/
def mem_var2 {T VT R : Type} (mvp : T → VT) (pfn : VT → VT → R) : mem_var2_t T VT R :=
  ⟨mvp, pfn⟩

/-- const_mem_var2(mvp, pfn) = const_mem_var2_t(mvp, pfn)  (line 369). -/
def const_mem_var2 {T VT R : Type} (mvp : T → VT) (pfn : VT → VT → R) :
    const_mem_var2_t T VT R :=
  ⟨mvp, pfn⟩

/-! ### Convenience compositions, lines 374-404 -/

/-- mem_var_equal_to(mvp, v) = const_mem_var1_t(mvp, bind2nd(equal_to\<VT\>(), v))
(line 379). -/
def mem_var_equal_to {T VT : Type} (eq : VT → VT → Bool) (mvp : T → VT) (v : VT) :
    const_mem_var1_t T VT Bool :=
  ⟨mvp, (bind2nd (equal_to eq) v).call⟩

/-- mem_var_less(mvp, v) = const_mem_var1_t(mvp, bind2nd(less\<VT\>(), v))
(line 387). -/
def mem_var_less {T VT : Type} (lt : VT → VT → Bool) (mvp : T → VT) (v : VT) :
    const_mem_var1_t T VT Bool :=
  ⟨mvp, (bind2nd (less lt) v).call⟩

/-- mem_var_equal_to(mvp), the two-instance overload:
const_mem_var2_t(mvp, equal_to\<VT\>())  (line 395). -/
def mem_var_equal_to' {T VT : Type} (eq : VT → VT → Bool) (mvp : T → VT) :
    const_mem_var2_t T VT Bool :=
  ⟨mvp, equal_to eq⟩

/-- mem_var_less(mvp), the two-instance overload:
const_mem_var2_t(mvp, less\<VT\>())  (line 403). -/
def mem_var_less' {T VT : Type} (lt : VT → VT → Bool) (mvp : T → VT) :
    const_mem_var2_t T VT Bool :=
  ⟨mvp, less lt⟩

/-! ### Concrete scenario data from the spec: struct Point with p1, p2 -/

/-- struct Point with int members x and y. -/
structure Point where
  x : Int
  y : Int

/-- p1 = Point with x 3 and y 5. -/
def p1 : Point := ⟨3, 5⟩

/-- p2 = Point with x 3 and y 7. -/
def p2 : Point := ⟨3, 7⟩

/-- operator== of int. -/
def intEq (a b : Int) : Bool := a == b

/-- operator< of int. -/
def intLt (a b : Int) : Bool := decide (a < b)

/-! ### Reified signature tags.
The base classes unary_function / binary_function (lines 49-60) declare the
argument and result types of each adaptor; for the claims about these tags
the relevant C++ type expressions are reified as data, copied from the
declarations in the source. -/

/-- A C++ type expression as it appears in the adaptor declarations. -/
inductive CppTypeExpr where
  /-- the type void -/
  | void : CppTypeExpr
  /-- the template parameter T (the host class) -/
  | paramT : CppTypeExpr
  /-- the template parameter V (the method argument type) -/
  | paramV : CppTypeExpr
  /-- the template parameter Ret (the method return type) -/
  | paramRet : CppTypeExpr
  /-- typename UnaryFunction::result_type -/
  | resultTypeOfUnaryFunction : CppTypeExpr
  /-- typename BinaryFunction::result_type -/
  | resultTypeOfBinaryFunction : CppTypeExpr
  /-- a reference t& -/
  | refTo (t : CppTypeExpr) : CppTypeExpr
  /-- a reference-to-const, const t& -/
  | constRefTo (t : CppTypeExpr) : CppTypeExpr
deriving DecidableEq

/-- The signature tag an adaptor inherits: either unary_function with its
argument_type and result_type, or binary_function with both argument types
and the result_type. -/
inductive SignatureTag where
  /-- unary_function\<Arg, Result\> -/
  | unary (argument_type result_type : CppTypeExpr) : SignatureTag
  /-- binary_function\<Arg1, Arg2, Result\> -/
  | binary (first_argument_type second_argument_type result_type : CppTypeExpr) :
      SignatureTag
deriving DecidableEq

/-- The arity a signature tag declares. -/
def SignatureTag.arity : SignatureTag → Nat
  | .unary _ _ => 1
  | .binary _ _ _ => 2

/-- The argument types a signature tag declares, in order. -/
def SignatureTag.args : SignatureTag → List CppTypeExpr
  | .unary a _ => [a]
  | .binary a b _ => [a, b]

/-- The result type a signature tag declares. -/
def SignatureTag.result : SignatureTag → CppTypeExpr
  | .unary _ r => r
  | .binary _ _ r => r

/-- The actual signature of an adaptor's operator(): its declared parameter
types, in order, and its declared return type. -/
structure CallSig where
  params : List CppTypeExpr
  ret : CppTypeExpr
deriving DecidableEq

/-- Strip reference and const-reference wrappers: a C++ parameter declared
const T& accepts an argument of type T, so tags and parameter lists are
compared modulo reference qualifiers, as STL convention does. -/
def CppTypeExpr.decay : CppTypeExpr → CppTypeExpr
  | .refTo t => t.decay
  | .constRefTo t => t.decay
  | t => t

/-- The signature-tag invariant of the spec: the tag's arity and argument
types (modulo reference qualifiers) match the call operator's parameters,
and the tag's result_type is the call operator's return type. -/
def tagMatchesCall (tag : SignatureTag) (c : CallSig) : Bool :=
  tag.args.map CppTypeExpr.decay == c.params.map CppTypeExpr.decay
    && tag.result == c.ret

/-- Line 277: mem_var1_t inherits
unary_function\<T&, typename UnaryFunction::result_type\>. -/
def mem_var1_t.declaredTag : SignatureTag :=
  .unary (.refTo .paramT) .resultTypeOfUnaryFunction

/-- Line 286: mem_var1_t's operator() takes one argument_type = T& parameter
and returns result_type = typename UnaryFunction::result_type. -/
def mem_var1_t.callSig : CallSig :=
  ⟨[.refTo .paramT], .resultTypeOfUnaryFunction⟩

/-- Line 293: const_mem_var1_t inherits
unary_function\<const T&, typename UnaryFunction::result_type\>. -/
def const_mem_var1_t.declaredTag : SignatureTag :=
  .unary (.constRefTo .paramT) .resultTypeOfUnaryFunction

/-- Line 302: const_mem_var1_t's operator() takes one const T& parameter and
returns typename UnaryFunction::result_type. -/
def const_mem_var1_t.callSig : CallSig :=
  ⟨[.constRefTo .paramT], .resultTypeOfUnaryFunction⟩

/-- Line 309: mem_var2_t inherits
unary_function\<T&, typename BinaryFunction::result_type\>. -/
def mem_var2_t.declaredTag : SignatureTag :=
  .unary (.refTo .paramT) .resultTypeOfBinaryFunction

/-- Line 318: mem_var2_t's operator() takes TWO argument_type = T& parameters
and returns typename BinaryFunction::result_type. -/
def mem_var2_t.callSig : CallSig :=
  ⟨[.refTo .paramT, .refTo .paramT], .resultTypeOfBinaryFunction⟩

/-- Line 325: const_mem_var2_t inherits
binary_function\<const T&, const T&, typename BinaryFunction::result_type\>. -/
def const_mem_var2_t.declaredTag : SignatureTag :=
  .binary (.constRefTo .paramT) (.constRefTo .paramT) .resultTypeOfBinaryFunction

/-- Line 334: const_mem_var2_t's operator() takes two const T& parameters and
returns typename BinaryFunction::result_type. -/
def const_mem_var2_t.callSig : CallSig :=
  ⟨[.constRefTo .paramT, .constRefTo .paramT], .resultTypeOfBinaryFunction⟩

/-- Line 244 via EXT_MEM_FUN_T at line 263: ext_mem_fun_t inherits
unary_function\<V, void\>. -/
def ext_mem_fun_t.declaredTag : SignatureTag := .unary .paramV .void

/-- Line 251 via EXT_MEM_FUN_T at line 263 (ArgType = V&): ext_mem_fun_t's
operator() takes one V& parameter and returns Ret. -/
def ext_mem_fun_t.callSig : CallSig := ⟨[.refTo .paramV], .paramRet⟩

/-- Line 244 via EXT_MEM_FUN_T at line 264: ext_mem_funbv_t inherits
unary_function\<V, void\>. -/
def ext_mem_funbv_t.declaredTag : SignatureTag := .unary .paramV .void

/-- Line 251 via EXT_MEM_FUN_T at line 264 (ArgType = V): ext_mem_funbv_t's
operator() takes one V parameter and returns Ret. -/
def ext_mem_funbv_t.callSig : CallSig := ⟨[.paramV], .paramRet⟩

/-- Line 244 via EXT_MEM_FUN_T at line 265: const_ext_mem_fun_t inherits
unary_function\<V, void\>. -/
def const_ext_mem_fun_t.declaredTag : SignatureTag := .unary .paramV .void

/-- Line 251 via EXT_MEM_FUN_T at line 265 (ArgType = const V&):
const_ext_mem_fun_t's operator() takes one const V& parameter and returns Ret. -/
def const_ext_mem_fun_t.callSig : CallSig := ⟨[.constRefTo .paramV], .paramRet⟩

/-- Line 244 via EXT_MEM_FUN_T at line 266: const_ext_mem_funbv_t inherits
unary_function\<V, void\>. -/
def const_ext_mem_funbv_t.declaredTag : SignatureTag := .unary .paramV .void

/-- Line 251 via EXT_MEM_FUN_T at line 266 (ArgType = V):
const_ext_mem_funbv_t's operator() takes one V parameter and returns Ret. -/
def const_ext_mem_funbv_t.callSig : CallSig := ⟨[.paramV], .paramRet⟩

/-- The 2-argument member-adaptor variants the source provides: mem_var2_t
(lines 308-322, factory mem_var2 at lines 358-364) and const_mem_var2_t
(lines 324-338, factory const_mem_var2 at lines 366-372). -/
def memVar2VariantCallSigs : List CallSig :=
  [mem_var2_t.callSig, const_mem_var2_t.callSig]

/-- A call signature takes all its instance arguments read-only iff every
parameter is a reference-to-const. -/
def CallSig.readOnlyInstances (c : CallSig) : Bool :=
  c.params.all fun p =>
    match p with
    | .constRefTo _ => true
    | _ => false

/-! ### State-passing variants of operator().
Each operator() in the source is a const member function whose body only
reads the data members; translated with the receiver state threaded
explicitly, it returns the result paired with the receiver state after the
call, which is the received state itself since the body contains no
assignment. -/

/-- binder1st::operator() with the receiver state threaded explicitly. -/
def binder1st.callSt {A1 A2 R : Type} (b : binder1st A1 A2 R) (v2 : A2) :
    R × binder1st A1 A2 R :=
  (b.m_pfn b.m_Value v2, b)

/-- binder2nd::operator() with the receiver state threaded explicitly. -/
def binder2nd.callSt {A1 A2 R : Type} (b : binder2nd A1 A2 R) (v1 : A1) :
    R × binder2nd A1 A2 R :=
  (b.m_pfn v1 b.m_Value, b)

/-- mem_var1_t::operator() with the receiver state threaded explicitly. -/
def mem_var1_t.callSt {T VT R : Type} (f : mem_var1_t T VT R) (p : T) :
    R × mem_var1_t T VT R :=
  (f.m_pfn (f.m_pv p), f)

/-- const_mem_var1_t::operator() with the receiver state threaded explicitly. -/
def const_mem_var1_t.callSt {T VT R : Type} (f : const_mem_var1_t T VT R) (p : T) :
    R × const_mem_var1_t T VT R :=
  (f.m_pfn (f.m_pv p), f)

/-- mem_var2_t::operator() with the receiver state threaded explicitly. -/
def mem_var2_t.callSt {T VT R : Type} (f : mem_var2_t T VT R) (p1 p2 : T) :
    R × mem_var2_t T VT R :=
  (f.m_pfn (f.m_pv p1) (f.m_pv p2), f)

/-- const_mem_var2_t::operator() with the receiver state threaded explicitly. -/
def const_mem_var2_t.callSt {T VT R : Type} (f : const_mem_var2_t T VT R) (p1 p2 : T) :
    R × const_mem_var2_t T VT R :=
  (f.m_pfn (f.m_pv p1) (f.m_pv p2), f)

/-! ### Theorems for the claims -/

/-- Claim C1: for every class T with data member m of type VT, every instance
obj and every 1-argument callable f, the 1-argument member adaptors satisfy
member1(m,f)(obj) = f(obj.m); and for every pair of instances x, y and
2-argument callable f, the 2-argument member adaptors satisfy
member2(m,f)(x,y) = f(x.m, y.m). -/
theorem C1_member_accessor_laws :
    (∀ (T VT R : Type) (mvp : T → VT) (f : VT → R) (obj : T),
        (mem_var1 mvp f).call obj = f (mvp obj)) ∧
    (∀ (T VT R : Type) (mvp : T → VT) (f : VT → R) (obj : T),
        (const_mem_var1 mvp f).call obj = f (mvp obj)) ∧
    (∀ (T VT R : Type) (mvp : T → VT) (f : VT → VT → R) (x y : T),
        (mem_var2 mvp f).call x y = f (mvp x) (mvp y)) ∧
    (∀ (T VT R : Type) (mvp : T → VT) (f : VT → VT → R) (x y : T),
        (const_mem_var2 mvp f).call x y = f (mvp x) (mvp y)) :=
  ⟨fun _ _ _ _ _ _ => rfl, fun _ _ _ _ _ _ => rfl,
   fun _ _ _ _ _ _ _ => rfl, fun _ _ _ _ _ _ _ => rfl⟩

/-- Claim C2: mem_var_equal_to(m, v) is extensionally equal to the composition
member1(m, bind_second(equal_to, v)), and evaluates to (obj.m == v); likewise
mem_var_less(m,v)(obj) = (obj.m < v); the no-fixed-value forms give
(x.m == y.m) and (x.m < y.m); and on the Point scenario with p1 = (3,5),
p2 = (3,7): mem_var_equal_to(x-member, 3)(p1), mem_var_less(y-member)(p1,p2)
and mem_var_equal_to(x-member)(p1,p2) all hold. -/
theorem C2_convenience_compositions :
    (∀ (T VT : Type) (eq : VT → VT → Bool) (mvp : T → VT) (v : VT) (obj : T),
        (mem_var_equal_to eq mvp v).call obj
            = (mem_var1 mvp (bind2nd (equal_to eq) v).call).call obj ∧
        (mem_var_equal_to eq mvp v).call obj = eq (mvp obj) v) ∧
    (∀ (T VT : Type) (lt : VT → VT → Bool) (mvp : T → VT) (v : VT) (obj : T),
        (mem_var_less lt mvp v).call obj = lt (mvp obj) v) ∧
    (∀ (T VT : Type) (eq : VT → VT → Bool) (mvp : T → VT) (x y : T),
        (mem_var_equal_to' eq mvp).call x y = eq (mvp x) (mvp y)) ∧
    (∀ (T VT : Type) (lt : VT → VT → Bool) (mvp : T → VT) (x y : T),
        (mem_var_less' lt mvp).call x y = lt (mvp x) (mvp y)) ∧
    (mem_var_equal_to intEq Point.x 3).call p1 = true ∧
    (mem_var_less' intLt Point.y).call p1 p2 = true ∧
    (mem_var_equal_to' intEq Point.x).call p1 p2 = true := by
  refine ⟨fun _ _ _ _ _ _ => ⟨rfl, rfl⟩, fun _ _ _ _ _ _ => rfl,
    fun _ _ _ _ _ _ => rfl, fun _ _ _ _ _ _ => rfl, ?_, ?_, ?_⟩ <;> decide

/-- Claim C3: over an arbitrary type T of which only operator< (lt) and
operator== (eq) are available: less(a,b) = (a < b), greater(a,b) = (b < a),
equal_to(a,b) = (a == b), not_equal_to(a,b) = !(a == b),
greater_equal(a,b) = (b < a || a == b) — which is not the same formula as
!(a < b), as the final conjunct shows on a concrete lt —
less_equal(a,b) = (a < b || a == b), and compare(a,b) is -1 if a < b, else 0
if a == b, else 1.  That the definitions use only < and == is witnessed by
their parameters: lt and eq are the only operations on T they receive. -/
theorem C3_comparator_family :
    (∀ (T : Type) (lt eq : T → T → Bool) (a b : T),
        less lt a b = lt a b ∧
        greater lt a b = lt b a ∧
        equal_to eq a b = eq a b ∧
        not_equal_to eq a b = !(eq a b) ∧
        greater_equal lt eq a b = (lt b a || eq a b) ∧
        less_equal lt eq a b = (lt a b || eq a b) ∧
        compare lt eq a b = (if lt a b then -1 else if eq a b then 0 else 1)) ∧
    greater_equal (fun (_ _ : Bool) => false) (fun _ _ => false) true true
      ≠ !((fun (_ _ : Bool) => false) true true) :=
  ⟨fun _ _ _ _ _ => ⟨rfl, rfl, rfl, rfl, rfl, rfl, rfl⟩, by decide⟩

/-- Claim C4 (code bug): the reified signature tags show mem_var2_t declaring
a unary tag while its call operator is binary, and the four EXT_MEM_FUN_T
adaptors declaring result_type void while their call operators return Ret;
the neighbouring member adaptors satisfy the invariant, showing the intended
pattern. -/
theorem C4_signature_tag_violations :
    tagMatchesCall mem_var2_t.declaredTag mem_var2_t.callSig = false ∧
    tagMatchesCall ext_mem_fun_t.declaredTag ext_mem_fun_t.callSig = false ∧
    tagMatchesCall ext_mem_funbv_t.declaredTag ext_mem_funbv_t.callSig = false ∧
    tagMatchesCall const_ext_mem_fun_t.declaredTag
        const_ext_mem_fun_t.callSig = false ∧
    tagMatchesCall const_ext_mem_funbv_t.declaredTag
        const_ext_mem_funbv_t.callSig = false ∧
    mem_var2_t.declaredTag.arity = 1 ∧
    mem_var2_t.callSig.params.length = 2 ∧
    ext_mem_fun_t.declaredTag.result = CppTypeExpr.void ∧
    ext_mem_fun_t.callSig.ret = CppTypeExpr.paramRet ∧
    tagMatchesCall mem_var1_t.declaredTag mem_var1_t.callSig = true ∧
    tagMatchesCall const_mem_var1_t.declaredTag const_mem_var1_t.callSig = true ∧
    tagMatchesCall const_mem_var2_t.declaredTag const_mem_var2_t.callSig = true := by
  decide

/-- Claim C5 counterexample: the source does provide a member2 variant whose
call operator takes its two instance arguments by non-const (mutable)
reference, namely mem_var2_t. -/
theorem C5_counterexample :
    mem_var2_t.callSig ∈ memVar2VariantCallSigs ∧
    CallSig.readOnlyInstances mem_var2_t.callSig = false := by
  decide

/-- Claim C5 as amended: both a non-const variant (mem_var2_t with factory
mem_var2, taking both instances by mutable reference T&) and a const variant
(const_mem_var2_t with factory const_mem_var2, taking both by const T&) of
the 2-argument member adaptor are provided, and both satisfy the member2 law. -/
theorem C5_member2_variants :
    memVar2VariantCallSigs = [mem_var2_t.callSig, const_mem_var2_t.callSig] ∧
    CallSig.readOnlyInstances mem_var2_t.callSig = false ∧
    CallSig.readOnlyInstances const_mem_var2_t.callSig = true ∧
    (∀ (T VT R : Type) (mvp : T → VT) (f : VT → VT → R) (x y : T),
        (mem_var2 mvp f).call x y = f (mvp x) (mvp y) ∧
        (const_mem_var2 mvp f).call x y = f (mvp x) (mvp y)) :=
  ⟨rfl, rfl, rfl, fun _ _ _ _ _ _ _ => ⟨rfl, rfl⟩⟩

/-- Claim C6: bind1st(f,v)(x) = f(v,x) and bind2nd(f,v)(x) = f(x,v); the
declared argument_type of the resulting adaptor is the non-bound argument
type of f and its declared result_type is f's result type. -/
theorem C6_binder_laws :
    (∀ (A1 A2 R : Type) (f : A1 → A2 → R) (v : A1) (x : A2),
        (bind1st f v).call x = f v x) ∧
    (∀ (A1 A2 R : Type) (f : A1 → A2 → R) (v : A2) (x : A1),
        (bind2nd f v).call x = f x v) ∧
    (∀ A1 A2 R : Type, binder1st.argument_type A1 A2 R = A2) ∧
    (∀ A1 A2 R : Type, binder1st.result_type A1 A2 R = R) ∧
    (∀ A1 A2 R : Type, binder2nd.argument_type A1 A2 R = A1) ∧
    (∀ A1 A2 R : Type, binder2nd.result_type A1 A2 R = R) :=
  ⟨fun _ _ _ _ _ _ => rfl, fun _ _ _ _ _ _ => rfl,
   fun _ _ _ => rfl, fun _ _ _ => rfl, fun _ _ _ => rfl, fun _ _ _ => rfl⟩

/-- Claim C7: unary_negator(f)(x) = !f(x) for every boolean-returning f, and
the negated adaptor's declared argument_type and result_type equal those of
the inner callable. -/
theorem C7_negator_law :
    (∀ (A : Type) (f : A → Bool) (x : A), (unary_negator f).call x = !(f x)) ∧
    (∀ A : Type, unary_negate.argument_type A = A) ∧
    (∀ A : Type, unary_negate.result_type A = Bool) :=
  ⟨fun _ _ _ => rfl, fun _ => rfl, fun _ => rfl⟩

/-- Claim C8: functor(pfn)(x) = pfn(x) for a 1-argument function pointer,
functor(pfn)(x,y) = pfn(x,y) for a 2-argument one, and wrapping
square(n) = n*n gives wrapped(4) = 16. -/
theorem C8_function_pointer_wrapping :
    (∀ (Arg Result : Type) (pfn : Arg → Result) (x : Arg),
        (functor pfn).call x = pfn x) ∧
    (∀ (A1 A2 R : Type) (pfn : A1 → A2 → R) (x : A1) (y : A2),
        (functor2.functor pfn).call x y = pfn x y) ∧
    (functor square).call 4 = 16 := by
  refine ⟨fun _ _ _ _ => rfl, fun _ _ _ _ _ _ => rfl, ?_⟩
  decide

/-- Claim C9: invoking an adaptor leaves its stored state unchanged (the
state-threaded operator() returns the receiver as it was), the result agrees
with the pure call, a second invocation on the post-call state returns the
same result, and adaptors constructed from identical inputs yield identical
results on identical arguments. -/
theorem C9_referential_transparency :
    (∀ (A1 A2 R : Type) (b : binder1st A1 A2 R) (x : A2),
        (b.callSt x).2 = b ∧ (b.callSt x).1 = b.call x ∧
        ((b.callSt x).2.callSt x).1 = (b.callSt x).1) ∧
    (∀ (A1 A2 R : Type) (b : binder2nd A1 A2 R) (x : A1),
        (b.callSt x).2 = b ∧ (b.callSt x).1 = b.call x ∧
        ((b.callSt x).2.callSt x).1 = (b.callSt x).1) ∧
    (∀ (T VT R : Type) (f : mem_var1_t T VT R) (p : T),
        (f.callSt p).2 = f ∧ (f.callSt p).1 = f.call p ∧
        ((f.callSt p).2.callSt p).1 = (f.callSt p).1) ∧
    (∀ (T VT R : Type) (f : const_mem_var1_t T VT R) (p : T),
        (f.callSt p).2 = f ∧ (f.callSt p).1 = f.call p ∧
        ((f.callSt p).2.callSt p).1 = (f.callSt p).1) ∧
    (∀ (T VT R : Type) (f : mem_var2_t T VT R) (x y : T),
        (f.callSt x y).2 = f ∧ (f.callSt x y).1 = f.call x y ∧
        ((f.callSt x y).2.callSt x y).1 = (f.callSt x y).1) ∧
    (∀ (T VT R : Type) (f : const_mem_var2_t T VT R) (x y : T),
        (f.callSt x y).2 = f ∧ (f.callSt x y).1 = f.call x y ∧
        ((f.callSt x y).2.callSt x y).1 = (f.callSt x y).1) ∧
    (∀ (A1 A2 R : Type) (f : A1 → A2 → R) (v : A1) (x : A2),
        (bind1st f v).call x = (bind1st f v).call x) :=
  ⟨fun _ _ _ _ _ => ⟨rfl, rfl, rfl⟩, fun _ _ _ _ _ => ⟨rfl, rfl, rfl⟩,
   fun _ _ _ _ _ => ⟨rfl, rfl, rfl⟩, fun _ _ _ _ _ => ⟨rfl, rfl, rfl⟩,
   fun _ _ _ _ _ _ => ⟨rfl, rfl, rfl⟩, fun _ _ _ _ _ _ => ⟨rfl, rfl, rfl⟩,
   fun _ _ _ _ _ _ => rfl⟩

/-- Claim C10: for integral operands, logical_and returns 1 exactly when both
operands are nonzero and 0 otherwise, logical_or returns 1 exactly when at
least one is nonzero and 0 otherwise, and each result is always the
normalized value 0 or 1. -/
theorem C10_logical_and_or_normalized :
    ∀ a b : Int,
      (logical_and a b = if a ≠ 0 ∧ b ≠ 0 then 1 else 0) ∧
      (logical_or a b = if a ≠ 0 ∨ b ≠ 0 then 1 else 0) ∧
      (logical_and a b = 0 ∨ logical_and a b = 1) ∧
      (logical_or a b = 0 ∨ logical_or a b = 1) := by
  intro a b
  by_cases ha : a = 0 <;> by_cases hb : b = 0 <;>
    simp [logical_and, logical_or, ofBool, toBool, bne, ha, hb]

end ustl
